import Mathlib

/-!
# Shallow embedding of the reviewerly pipeline core

This file embeds, in Lean 4, the parts of the `reviewerly` repository that
the verified claims are about:

* `src/verifier/tasks.py` — `verify_analysis`: sub-score computation,
  composite reliability score, status thresholds, persistence.
* `src/post-builder/tasks.py` — `slugify` and `build_post`.
* `src/publisher/tasks.py` — `_post_to_cms`, `_post_to_telegram`,
  `publish_post`.
* `src/gateway-api/main.py` — `list_drafts`.
* `src/common/models.py` — the data model (enums and entities).

Modelling conventions:

* Python floats are modelled as exact rationals (`ℚ`); all numeric literals
  in the scoring code are decimal and the claims speak of exact values.
* The SQLAlchemy session/store is modelled as an explicit `Store` value.
  Each Celery task becomes a function `Store → … → Store × Except E R`:
  on an exception the task rolls back, so the returned store is the input
  store unchanged; on success the returned store carries the committed rows.
  Auto-increment primary keys are modelled with counters in the store.
* `Analysis.items` is a JSONB column; the verifier reads only
  `items.get("source_ids", [])` (empty when `items` is null), so `items`
  is modelled as the optional list of source ids.
* Network and clock effects are explicit parameters: `build_post` receives
  the formatted UTC date string and a timestamp, `publish_post` receives a
  `PublishEnv` describing credentials and the outcome of the Telegram call.
-/

namespace Reviewerly

/-- `TopicEnum` from `common/models.py`. -/
inductive TopicEnum where
  | ecom
  | it
  | og
deriving DecidableEq, Repr

/-- The `.value` string of each topic member (`"ecom"`, `"it"`, `"o&g"`). -/
def TopicEnum.value : TopicEnum → String
  | .ecom => "ecom"
  | .it => "it"
  | .og => "o&g"

/-- `VerificationStatus` from `common/models.py`. -/
inductive VerificationStatus where
  | passed
  | flagged
  | failed
deriving DecidableEq, Repr

/-- The `.value` string of each verification status member. -/
def VerificationStatus.value : VerificationStatus → String
  | .passed => "passed"
  | .flagged => "flagged"
  | .failed => "failed"

/-- `PostStatus` from `common/models.py`. -/
inductive PostStatus where
  | draft
  | in_review
  | approved
  | published
deriving DecidableEq, Repr

/-- The `.value` string of each post status member. -/
def PostStatus.value : PostStatus → String
  | .draft => "draft"
  | .in_review => "in_review"
  | .approved => "approved"
  | .published => "published"

/-- The `analysis` row (`common/models.py`), restricted to the columns the
verifier and the post builder read. `items` models the JSONB column through
the only access the code makes: `analysis.items.get("source_ids", []) if
analysis.items else []`. -/
structure Analysis where
  id : Nat
  topic : TopicEnum
  items : Option (List Nat)
  thesis : Option String
  impact_market : Option String
  winners : Option String
  losers : Option String
  created_at : Nat
deriving DecidableEq, Repr

/-- The `verification` row: per-check breakdown (the `checks` JSON object
with keys `S`, `C`, `T`, `M`, `F`), composite score, issues, status. -/
structure Verification where
  id : Nat
  analysis_id : Nat
  checksS : ℚ
  checksC : ℚ
  checksT : ℚ
  checksM : ℚ
  checksF : ℚ
  reliability_score : ℚ
  issues : List String
  status : VerificationStatus
deriving DecidableEq, Repr

/-- The `post` row, restricted to the columns the claims are about. -/
structure Post where
  id : Nat
  slug : String
  topic : TopicEnum
  title : String
  summary_tg : String
  reliability_score : Option ℚ
  status : PostStatus
  cms_id : Option String
  created_at : Nat
deriving DecidableEq, Repr

/-- The durable store: the tables the modelled tasks read and write, plus
auto-increment counters for the primary keys assigned at commit time. -/
structure Store where
  analyses : List Analysis
  verifications : List Verification
  posts : List Post
  next_verification_id : Nat
  next_post_id : Nat
deriving DecidableEq, Repr

/-- `session.get(Analysis, analysis_id)`. -/
def Store.getAnalysis (st : Store) (analysis_id : Nat) : Option Analysis :=
  st.analyses.find? (fun a => a.id = analysis_id)

/-- `session.query(Verification).filter_by(analysis_id=…).one_or_none()`
(the schema keeps at most one verification per analysis). -/
def Store.getVerificationFor (st : Store) (analysis_id : Nat) : Option Verification :=
  st.verifications.find? (fun v => v.analysis_id = analysis_id)

/-- `session.get(Post, post_id)`. -/
def Store.getPost (st : Store) (post_id : Nat) : Option Post :=
  st.posts.find? (fun p => p.id = post_id)

/-! ## Verifier (`src/verifier/tasks.py`) -/

/-- The failure of `verify_analysis`: `raise ValueError(f"Analysis
{analysis_id} not found")` when the referenced analysis does not exist.
The spec's error taxonomy calls this **NotFound**. -/
inductive VerifyError where
  | notFound (analysis_id : Nat)
deriving DecidableEq, Repr

/-- The dict returned by `verify_analysis` on success. -/
structure VerifyOk where
  verification_id : Nat
  reliability_score : ℚ
  status : String
deriving DecidableEq, Repr

/-- `s_score = min(1.0, n_sources / 5.0) * 100` — source diversity. -/
def sScore (n_sources : Nat) : ℚ :=
  min 1 ((n_sources : ℚ) / 5) * 100

/-- The weighted sum from `verify_analysis`:
`0.30 * s + 0.25 * c + 0.15 * t + 0.20 * m + 0.10 * f`. -/
def compositeScore (s c t m f : ℚ) : ℚ :=
  0.30 * s + 0.25 * c + 0.15 * t + 0.20 * m + 0.10 * f

/-- The status thresholds of `verify_analysis`: `final_score >= 65 →
PASSED`, `elif final_score >= 50 → FLAGGED`, `else FAILED`. -/
def statusFor (final_score : ℚ) : VerificationStatus :=
  if final_score ≥ 65 then .passed
  else if final_score ≥ 50 then .flagged
  else .failed

/-- `verify_analysis(analysis_id)` from `src/verifier/tasks.py`. On the
missing-analysis error the session rolls back, so the store is returned
unchanged; on success the new verification row is committed. -/
def verify_analysis (st : Store) (analysis_id : Nat) :
    Store × Except VerifyError VerifyOk :=
  match st.getAnalysis analysis_id with
  | none => (st, .error (.notFound analysis_id))
  | some analysis =>
    let source_ids := analysis.items.getD []
    let n_sources := source_ids.length
    let s_score := sScore n_sources
    let c_score : ℚ := 70
    let t_score : ℚ := 80
    let m_score : ℚ := 75
    let f_score : ℚ := 85
    let final_score := compositeScore s_score c_score t_score m_score f_score
    let status := statusFor final_score
    let verification : Verification :=
      { id := st.next_verification_id
        analysis_id := analysis.id
        checksS := s_score
        checksC := c_score
        checksT := t_score
        checksM := m_score
        checksF := f_score
        reliability_score := final_score
        issues := []
        status := status }
    ({ st with
        verifications := st.verifications ++ [verification]
        next_verification_id := st.next_verification_id + 1 },
     .ok { verification_id := verification.id
           reliability_score := final_score
           status := status.value })

/-! ## Post builder (`src/post-builder/tasks.py`) -/

/-- The character class `[a-z0-9\-]` of `slugify`'s first regex: the
characters it keeps. -/
def isSlugChar (c : Char) : Bool :=
  (decide ('a' ≤ c) && decide (c ≤ 'z')) ||
  (decide ('0' ≤ c) && decide (c ≤ '9')) || decide (c = '-')

/-- `re.sub(r"[^a-z0-9\-]+", "-", value)`: replace each maximal run of
characters outside the class by a single hyphen. The Boolean flag records
whether the previous character belonged to such a run (so the run's later
characters emit nothing). -/
def subBadAux : Bool → List Char → List Char
  | _, [] => []
  | prevBad, c :: cs =>
    if isSlugChar c then c :: subBadAux false cs
    else if prevBad then subBadAux true cs
    else '-' :: subBadAux true cs

/-- `re.sub(r"-+", "-", value)`: collapse each run of hyphens to one.
The flag records whether the previous character was a hyphen. -/
def collapseAux : Bool → List Char → List Char
  | _, [] => []
  | prevHyphen, c :: cs =>
    if c = '-' then
      if prevHyphen then collapseAux true cs
      else '-' :: collapseAux true cs
    else c :: collapseAux false cs

/-- `value.strip("-")`: drop leading and trailing hyphens. -/
def stripHyphens (l : List Char) : List Char :=
  ((l.dropWhile (fun c => c = '-')).reverse.dropWhile (fun c => c = '-')).reverse

/-- `slugify` from `src/post-builder/tasks.py`, on character lists:
lowercase, replace runs of excluded characters by `-`, collapse `-` runs,
strip `-` from both ends. -/
def slugifyList (l : List Char) : List Char :=
  stripHyphens (collapseAux false (subBadAux false (l.map Char.toLower)))

/-- `slugify` on strings. -/
def slugify (s : String) : String :=
  ⟨slugifyList s.data⟩

/-- Decimal digit characters of a natural number, most significant first,
with explicit fuel so the kernel can evaluate it. -/
def natStrAux : Nat → Nat → List Char
  | 0, _ => []
  | fuel + 1, n =>
    if n < 10 then [Nat.digitChar n]
    else natStrAux fuel (n / 10) ++ [Nat.digitChar (n % 10)]

/-- Python's `str(n)` for the non-negative integer primary keys:
decimal digits, `"0"` for zero, no leading zeros. -/
def natStr (n : Nat) : List Char :=
  natStrAux (n + 1) n

/-- The slug built by `build_post`:
`slugify(f"{analysis.topic.value}-{analysis.id}-{event_date}")`. -/
def mkSlug (topic : TopicEnum) (analysis_id : Nat) (event_date : String) : String :=
  slugify (topic.value ++ "-" ++ String.mk (natStr analysis_id) ++ "-" ++ event_date)

/-- Python's `x or default` on an optional string column: `None` and the
empty string are both falsy. -/
def pyOrStr (s : Option String) (d : String) : String :=
  match s with
  | none => d
  | some t => if t = "" then d else t

/-- The failure of `build_post`: `raise ValueError(f"Analysis {analysis_id}
not found")`. -/
inductive BuildError where
  | notFound (analysis_id : Nat)
deriving DecidableEq, Repr

/-- `build_post(analysis_id)` from `src/post-builder/tasks.py`. The
formatted UTC date (`event_date`) and the commit timestamp (`now`) are
explicit parameters. The body HTML and SEO metadata are rendering-only
outputs no claim mentions and are not modelled. On success exactly one new
`Post` row is committed with status `draft`. -/
def build_post (st : Store) (analysis_id : Nat) (event_date : String) (now : Nat) :
    Store × Except BuildError Nat :=
  match st.getAnalysis analysis_id with
  | none => (st, .error (.notFound analysis_id))
  | some analysis =>
    let verification := st.getVerificationFor analysis_id
    let reliability_score := verification.map (·.reliability_score)
    let title :=
      "Аналитика по теме " ++ (analysis.topic.value.map Char.toUpper) ++ " — " ++ event_date
    let tldr :=
      [pyOrStr analysis.thesis "нет тезиса",
       pyOrStr analysis.impact_market "нет влияния",
       "Выигрывают: " ++ pyOrStr analysis.winners "нет данных" ++
         "; Проигрывают: " ++ pyOrStr analysis.losers "нет данных"]
    let summary_tg :=
      title ++ "\n\n" ++ String.intercalate "\n" (tldr.map (fun b => "• " ++ b)) ++
        "\n\nПолная аналитика → \x7blink\x7d"
    let slug := mkSlug analysis.topic analysis.id event_date
    let post : Post :=
      { id := st.next_post_id
        slug := slug
        topic := analysis.topic
        title := title
        summary_tg := summary_tg
        reliability_score := reliability_score
        status := .draft
        cms_id := none
        created_at := now }
    ({ st with
        posts := st.posts ++ [post]
        next_post_id := st.next_post_id + 1 },
     .ok post.id)

/-! ## Publisher (`src/publisher/tasks.py`) -/

/-- The environment `publish_post` runs in: the CMS provider and Telegram
credentials read from `os.getenv`, plus whether the Telegram HTTP call
succeeds (`telegram_ok = false` covers both a non-OK API response and a
raised request exception — the code logs and swallows both). -/
structure PublishEnv where
  cms_provider : String
  telegram_token : String
  telegram_chat_id : String
  telegram_ok : Bool
deriving DecidableEq, Repr

/-- What `_post_to_telegram` did; the Python function returns `None` to its
caller in every one of these cases, so this outcome is only ever logged. -/
inductive TelegramOutcome where
  | skippedNoCreds
  | sent (message : String)
  | failedLogged (message : String)
deriving DecidableEq, Repr

/-- `_post_to_cms(post)`: returns `f"cms-{post.slug}"`. -/
def postToCms (post : Post) : String :=
  "cms-" ++ post.slug

/-- `_post_to_telegram(post)`: skips when credentials are missing; on an
API error or request exception it logs and returns normally. It never
raises to `publish_post`. -/
def postToTelegram (env : PublishEnv) (post : Post) : TelegramOutcome :=
  if env.telegram_token = "" ∨ env.telegram_chat_id = "" then .skippedNoCreds
  else
    let message := post.summary_tg.replace "{link}" ("https://example.com/" ++ post.slug)
    if env.telegram_ok then .sent message
    else .failedLogged message

/-- The failure of `publish_post`: `raise ValueError(f"Post {post_id} not
found")`. -/
inductive PublishError where
  | notFound (post_id : Nat)
deriving DecidableEq, Repr

/-- The dict returned by `publish_post` on success: only the post id, the
CMS id (when the `cms` channel was requested) and the final status. It has
no per-channel outcome or error field. -/
structure PublishResult where
  post_id : Nat
  cms_id : Option String
  status : String
deriving DecidableEq, Repr

/-- `publish_post(post_id, channels)` from `src/publisher/tasks.py`:
publish to the CMS when requested (setting `post.cms_id`), attempt Telegram
when requested (its outcome is discarded), then set the post's status to
`published` unconditionally and commit. -/
def publish_post (st : Store) (post_id : Nat) (channels : List String)
    (env : PublishEnv) : Store × Except PublishError PublishResult :=
  match st.getPost post_id with
  | none => (st, .error (.notFound post_id))
  | some post =>
    let cms_id : Option String :=
      if "cms" ∈ channels then some (postToCms post) else none
    let post := if "cms" ∈ channels then { post with cms_id := cms_id } else post
    let _tg : Option TelegramOutcome :=
      if "telegram" ∈ channels then some (postToTelegram env post) else none
    let post := { post with status := .published }
    ({ st with posts := st.posts.map (fun p => if p.id = post_id then post else p) },
     .ok { post_id := post.id
           cms_id := cms_id
           status := post.status.value })

/-! ## Gateway drafts listing (`src/gateway-api/main.py`) -/

/-- One element of the JSON array returned by `GET /v1/editor/drafts`. -/
structure DraftRow where
  id : Nat
  slug : String
  title : String
  reliability_score : Option ℚ
  created_at : Nat
  status : String
deriving DecidableEq, Repr

/-- The row filter of `list_drafts`:
`Post.status == status AND (Post.reliability_score >= min_score OR
Post.reliability_score IS NULL)`. -/
def draftsFilter (status : PostStatus) (min_score : ℚ) (p : Post) : Bool :=
  decide (p.status = status) &&
    (match p.reliability_score with
     | none => true
     | some s => decide (min_score ≤ s))

/-- Insert into a list kept in descending `created_at` order. -/
def insertByCreatedDesc (p : Post) : List Post → List Post
  | [] => [p]
  | q :: qs =>
    if q.created_at ≤ p.created_at then p :: q :: qs
    else q :: insertByCreatedDesc p qs

/-- `ORDER BY created_at DESC` (ties in unspecified order, as in SQL). -/
def sortByCreatedDesc : List Post → List Post
  | [] => []
  | p :: ps => insertByCreatedDesc p (sortByCreatedDesc ps)

/-- The JSON serialization of one post in `list_drafts`. Note the
truthiness test `float(p.reliability_score) if p.reliability_score else
None`: a stored score of `0` serializes as `null`. -/
def draftRow (p : Post) : DraftRow :=
  { id := p.id
    slug := p.slug
    title := p.title
    reliability_score :=
      match p.reliability_score with
      | none => none
      | some s => if s = 0 then none else some s
    created_at := p.created_at
    status := p.status.value }

/-- `list_drafts(status, min_score)` from `src/gateway-api/main.py`:
filter by status and (score ≥ min or score null), order by creation time
descending, serialize. -/
def list_drafts (st : Store) (status : PostStatus) (min_score : ℚ) : List DraftRow :=
  (sortByCreatedDesc (st.posts.filter (draftsFilter status min_score))).map draftRow

/-! ## Sample stores used by concrete theorems and witnesses -/

/-- An analysis with five contributing sources. -/
def sampleAnalysis5 : Analysis :=
  { id := 1, topic := .ecom, items := some [10, 20, 30, 40, 50]
    thesis := some "тезис", impact_market := none, winners := none, losers := none
    created_at := 0 }

/-- An analysis with zero contributing sources. -/
def sampleAnalysis0 : Analysis :=
  { id := 2, topic := .it, items := some []
    thesis := none, impact_market := none, winners := none, losers := none
    created_at := 0 }

/-- A store holding the two sample analyses and nothing else. -/
def sampleStore : Store :=
  { analyses := [sampleAnalysis5, sampleAnalysis0]
    verifications := [], posts := []
    next_verification_id := 1, next_post_id := 1 }

/-! ## Helper lemmas about the verifier -/

/-- Unfolding of `verify_analysis` on a present analysis: the committed
row and the returned dict, in terms of `sScore`, `compositeScore` and
`statusFor`. -/
theorem verify_analysis_ok_shape (st : Store) (aid : Nat) (a : Analysis)
    (h : st.getAnalysis aid = some a) :
    verify_analysis st aid =
      ({ st with
          verifications := st.verifications ++
            [{ id := st.next_verification_id
               analysis_id := a.id
               checksS := sScore (a.items.getD []).length
               checksC := 70, checksT := 80, checksM := 75, checksF := 85
               reliability_score := compositeScore (sScore (a.items.getD []).length) 70 80 75 85
               issues := []
               status := statusFor (compositeScore (sScore (a.items.getD []).length) 70 80 75 85) }]
          next_verification_id := st.next_verification_id + 1 },
       .ok { verification_id := st.next_verification_id
             reliability_score := compositeScore (sScore (a.items.getD []).length) 70 80 75 85
             status := (statusFor (compositeScore (sScore (a.items.getD []).length) 70 80 75 85)).value }) := by
  simp [verify_analysis, h]

/-- `statusFor` inverts the two threshold cut points exactly. -/
theorem statusFor_iff (q : ℚ) :
    (statusFor q = .passed ↔ 65 ≤ q) ∧
    (statusFor q = .flagged ↔ 50 ≤ q ∧ q < 65) ∧
    (statusFor q = .failed ↔ q < 50) := by
  unfold statusFor
  split_ifs with h1 h2 <;> refine ⟨?_, ?_, ?_⟩ <;> simp <;>
    first
      | linarith
      | (intro h; linarith)
      | (constructor <;> linarith)

/-- The composite of the verifier's actual sub-scores, as a function of the
source count alone. -/
theorem compositeScore_sScore_eq (n : Nat) :
    compositeScore (sScore n) 70 80 75 85 = 30 * min 1 ((n : ℚ) / 5) + 53 := by
  unfold compositeScore sScore
  ring_nf

/-- The store with no rows, used by witnesses of error-path theorems. -/
def emptyStore : Store :=
  { analyses := [], verifications := [], posts := []
    next_verification_id := 1, next_post_id := 1 }

/-! ## Claim theorems about the verifier -/

/-- C1: every verification committed by `verify_analysis` has its status
determined exactly by the two cut points: `passed` iff the composite score
is ≥ 65, `flagged` iff it is in [50, 65), `failed` iff it is < 50; the
returned dict carries the same score and the status's string value. -/
theorem verify_status_thresholds (st : Store) (aid : Nat) (a : Analysis)
    (h : st.getAnalysis aid = some a) :
    ∃ st' r v, verify_analysis st aid = (st', Except.ok r) ∧
      st'.verifications = st.verifications ++ [v] ∧
      r.reliability_score = v.reliability_score ∧
      r.status = v.status.value ∧
      (v.status = .passed ↔ 65 ≤ v.reliability_score) ∧
      (v.status = .flagged ↔ 50 ≤ v.reliability_score ∧ v.reliability_score < 65) ∧
      (v.status = .failed ↔ v.reliability_score < 50) := by
  refine ⟨_, _, _, verify_analysis_ok_shape st aid a h, rfl, rfl, rfl, ?_, ?_, ?_⟩
  · exact (statusFor_iff _).1
  · exact (statusFor_iff _).2.1
  · exact (statusFor_iff _).2.2

/-- Witness for C1 at the sample store. -/
theorem verify_status_thresholds_witness :
    ∃ st' r v, verify_analysis sampleStore 1 = (st', Except.ok r) ∧
      st'.verifications = sampleStore.verifications ++ [v] ∧
      r.reliability_score = v.reliability_score ∧
      r.status = v.status.value ∧
      (v.status = .passed ↔ 65 ≤ v.reliability_score) ∧
      (v.status = .flagged ↔ 50 ≤ v.reliability_score ∧ v.reliability_score < 65) ∧
      (v.status = .failed ↔ v.reliability_score < 50) :=
  verify_status_thresholds sampleStore 1 sampleAnalysis5 rfl

/-- C2: the composite reliability score is the weighted sum
`0.30*S + 0.25*C + 0.15*T + 0.20*M + 0.10*F`; the weights sum to 1; and
for sub-scores each in [0,100] the composite lies in [0,100]. -/
theorem verify_composite_weighted_sum :
    ((0.30 : ℚ) + 0.25 + 0.15 + 0.20 + 0.10 = 1) ∧
    (∀ st aid a, Store.getAnalysis st aid = some a →
      ∃ st' r v, verify_analysis st aid = (st', Except.ok r) ∧
        st'.verifications = st.verifications ++ [v] ∧
        v.reliability_score =
          0.30 * v.checksS + 0.25 * v.checksC + 0.15 * v.checksT +
            0.20 * v.checksM + 0.10 * v.checksF ∧
        r.reliability_score = v.reliability_score) ∧
    (∀ s c t m f : ℚ, 0 ≤ s → s ≤ 100 → 0 ≤ c → c ≤ 100 → 0 ≤ t → t ≤ 100 →
      0 ≤ m → m ≤ 100 → 0 ≤ f → f ≤ 100 →
      0 ≤ compositeScore s c t m f ∧ compositeScore s c t m f ≤ 100) := by
  refine ⟨by norm_num, ?_, ?_⟩
  · intro st aid a h
    exact ⟨_, _, _, verify_analysis_ok_shape st aid a h, rfl, rfl, rfl⟩
  · intro s c t m f hs0 hs1 hc0 hc1 ht0 ht1 hm0 hm1 hf0 hf1
    unfold compositeScore
    constructor <;> linarith

/-- Witness for C2 at the sample store and at concrete sub-scores. -/
theorem verify_composite_weighted_sum_witness :
    ((0.30 : ℚ) + 0.25 + 0.15 + 0.20 + 0.10 = 1) ∧
    (∃ st' r v, verify_analysis sampleStore 1 = (st', Except.ok r) ∧
      st'.verifications = sampleStore.verifications ++ [v] ∧
      v.reliability_score =
        0.30 * v.checksS + 0.25 * v.checksC + 0.15 * v.checksT +
          0.20 * v.checksM + 0.10 * v.checksF ∧
      r.reliability_score = v.reliability_score) ∧
    (0 ≤ compositeScore 0 100 0 100 0 ∧ compositeScore 0 100 0 100 0 ≤ 100) :=
  ⟨verify_composite_weighted_sum.1,
   verify_composite_weighted_sum.2.1 sampleStore 1 sampleAnalysis5 rfl,
   verify_composite_weighted_sum.2.2 0 100 0 100 0 (by decide) (by decide) (by decide)
     (by decide) (by decide) (by decide) (by decide) (by decide) (by decide) (by decide)⟩

/-- C3: the committed S sub-score is `min(1, n_sources/5) * 100`; it is
monotone in the source count and equals exactly 100 from 5 sources on. -/
theorem verify_source_diversity_subscore :
    (∀ n : Nat, sScore n = min 1 ((n : ℚ) / 5) * 100) ∧
    (∀ st aid a, Store.getAnalysis st aid = some a →
      ∃ st' r v, verify_analysis st aid = (st', Except.ok r) ∧
        st'.verifications = st.verifications ++ [v] ∧
        v.checksS = sScore (a.items.getD []).length) ∧
    (∀ n m : Nat, n ≤ m → sScore n ≤ sScore m) ∧
    (∀ n : Nat, 5 ≤ n → sScore n = 100) := by
  refine ⟨fun n => rfl, ?_, ?_, ?_⟩
  · intro st aid a h
    exact ⟨_, _, _, verify_analysis_ok_shape st aid a h, rfl, rfl⟩
  · intro n m hnm
    unfold sScore
    have hq : (n : ℚ) / 5 ≤ (m : ℚ) / 5 := by
      apply div_le_div_of_nonneg_right ?_ (by norm_num)
      exact_mod_cast hnm
    exact mul_le_mul_of_nonneg_right (min_le_min le_rfl hq) (by norm_num)
  · intro n hn
    unfold sScore
    have hq : (1 : ℚ) ≤ (n : ℚ) / 5 := by
      rw [le_div_iff₀ (by norm_num)]
      norm_num
      exact_mod_cast hn
    rw [min_eq_left hq, one_mul]

/-- Witness for C3 at the sample store and at concrete source counts. -/
theorem verify_source_diversity_subscore_witness :
    (sScore 3 = min 1 ((3 : ℚ) / 5) * 100) ∧
    (∃ st' r v, verify_analysis sampleStore 1 = (st', Except.ok r) ∧
      st'.verifications = sampleStore.verifications ++ [v] ∧
      v.checksS = sScore (sampleAnalysis5.items.getD []).length) ∧
    (sScore 2 ≤ sScore 4) ∧
    (sScore 7 = 100) :=
  ⟨verify_source_diversity_subscore.1 3,
   verify_source_diversity_subscore.2.1 sampleStore 1 sampleAnalysis5 rfl,
   verify_source_diversity_subscore.2.2.1 2 4 (by decide),
   verify_source_diversity_subscore.2.2.2 7 (by decide)⟩

/-- C6: `verify_analysis` on a missing analysis id fails with the NotFound
error (`ValueError(f"Analysis … not found")`) and the store is returned
unchanged — no verification row, partial or defaulted, is committed. -/
theorem verify_missing_analysis_not_found (st : Store) (aid : Nat)
    (h : st.getAnalysis aid = none) :
    verify_analysis st aid = (st, Except.error (VerifyError.notFound aid)) := by
  simp [verify_analysis, h]

/-- Witness for C6 at the empty store. -/
theorem verify_missing_analysis_not_found_witness :
    verify_analysis emptyStore 7 = (emptyStore, Except.error (VerifyError.notFound 7)) :=
  verify_missing_analysis_not_found emptyStore 7 rfl

/-- C10: for every existing analysis, the verification depends only on the
number of stored source ids: the C, T, M, F sub-scores are the constants
70, 80, 75, 85, the composite equals `30 * min(1, n/5) + 53`, and the
committed issues list is empty. -/
theorem verify_depends_only_on_source_count (st : Store) (aid : Nat) (a : Analysis)
    (h : st.getAnalysis aid = some a) :
    ∃ st' v, verify_analysis st aid =
      (st', Except.ok
        { verification_id := st.next_verification_id
          reliability_score := 30 * min 1 (((a.items.getD []).length : ℚ) / 5) + 53
          status := (statusFor (30 * min 1 (((a.items.getD []).length : ℚ) / 5) + 53)).value }) ∧
      st'.verifications = st.verifications ++ [v] ∧
      v.checksC = 70 ∧ v.checksT = 80 ∧ v.checksM = 75 ∧ v.checksF = 85 ∧
      v.issues = [] ∧
      v.reliability_score = 30 * min 1 (((a.items.getD []).length : ℚ) / 5) + 53 := by
  have hs := verify_analysis_ok_shape st aid a h
  rw [compositeScore_sScore_eq] at hs
  exact ⟨_, _, hs, rfl, rfl, rfl, rfl, rfl, rfl, rfl⟩

/-- Witness for C10 at the sample store. -/
theorem verify_depends_only_on_source_count_witness :
    ∃ st' v, verify_analysis sampleStore 2 =
      (st', Except.ok
        { verification_id := sampleStore.next_verification_id
          reliability_score :=
            30 * min 1 (((sampleAnalysis0.items.getD []).length : ℚ) / 5) + 53
          status :=
            (statusFor (30 * min 1 (((sampleAnalysis0.items.getD []).length : ℚ) / 5) + 53)).value }) ∧
      st'.verifications = sampleStore.verifications ++ [v] ∧
      v.checksC = 70 ∧ v.checksT = 80 ∧ v.checksM = 75 ∧ v.checksF = 85 ∧
      v.issues = [] ∧
      v.reliability_score =
        30 * min 1 (((sampleAnalysis0.items.getD []).length : ℚ) / 5) + 53 :=
  verify_depends_only_on_source_count sampleStore 2 sampleAnalysis0 rfl

/-- C7: on the sample analyses — five sources give S = 100, composite
exactly 83 and status `passed`; zero sources give S = 0, composite exactly
53 and status `flagged`. -/
theorem verify_concrete_scenarios :
    (verify_analysis sampleStore 1).2 =
      Except.ok { verification_id := 1, reliability_score := 83, status := "passed" } ∧
    ((verify_analysis sampleStore 1).1.verifications.map (fun v => v.checksS)) = [100] ∧
    (verify_analysis sampleStore 2).2 =
      Except.ok { verification_id := 1, reliability_score := 53, status := "flagged" } ∧
    ((verify_analysis sampleStore 2).1.verifications.map (fun v => v.checksS)) = [0] := by
  have h1 := verify_analysis_ok_shape sampleStore 1 sampleAnalysis5 rfl
  have h2 := verify_analysis_ok_shape sampleStore 2 sampleAnalysis0 rfl
  rw [h1, h2]
  refine ⟨?_, ?_, ?_, ?_⟩ <;>
    norm_num [sampleStore, sampleAnalysis5, sampleAnalysis0, sScore, compositeScore,
      statusFor, VerificationStatus.value]

/-! ## Claim theorems about the post builder's precondition (C4) -/

/-- A committed verification for `sampleAnalysis5`, scoring 83/passed. -/
def sampleVerification : Verification :=
  { id := 1, analysis_id := 1
    checksS := 100, checksC := 70, checksT := 80, checksM := 75, checksF := 85
    reliability_score := 83, issues := [], status := .passed }

/-- `sampleStore` with the verification of analysis 1 committed. -/
def verifiedStore : Store :=
  { analyses := [sampleAnalysis5, sampleAnalysis0]
    verifications := [sampleVerification], posts := []
    next_verification_id := 2, next_post_id := 1 }

/-- Counterexample for C4: `build_post` invoked on analysis 1 of
`sampleStore`, which has no verification, does not fail — it commits one
new draft post whose `reliability_score` is `None`. -/
theorem build_without_verification_commits :
    (build_post sampleStore 1 "2026-10-12" 17).2 = Except.ok 1 ∧
    ((build_post sampleStore 1 "2026-10-12" 17).1.posts.map
        (fun p => (p.id, p.status, p.reliability_score))) =
      [(1, PostStatus.draft, none)] ∧
    sampleStore.getVerificationFor 1 = none := by
  refine ⟨?_, ?_, rfl⟩ <;>
    simp [build_post, sampleStore, Store.getAnalysis, Store.getVerificationFor,
      sampleAnalysis5, sampleAnalysis0, List.find?]

/-- C4 (amended): `build_post` does not require a verification. On any
existing analysis it succeeds, committing exactly one new post with status
`draft` whose `reliability_score` is copied from the analysis's
verification when one exists and is `None` otherwise; only a missing
analysis makes it fail. -/
theorem build_creates_draft_copying_score (st : Store) (aid : Nat) (a : Analysis)
    (event_date : String) (now : Nat)
    (h : st.getAnalysis aid = some a) :
    ∃ p, build_post st aid event_date now =
        ({ st with posts := st.posts ++ [p], next_post_id := st.next_post_id + 1 },
         Except.ok p.id) ∧
      p.id = st.next_post_id ∧
      p.status = .draft ∧
      p.slug = mkSlug a.topic a.id event_date ∧
      p.reliability_score = (st.getVerificationFor aid).map (fun v => v.reliability_score) := by
  simp only [build_post, h]
  exact ⟨_, rfl, rfl, rfl, rfl, rfl⟩

/-- Witness for the amended C4 at a store holding a verification. -/
theorem build_creates_draft_copying_score_witness :
    ∃ p, build_post verifiedStore 1 "2026-10-12" 3 =
        ({ verifiedStore with
            posts := verifiedStore.posts ++ [p]
            next_post_id := verifiedStore.next_post_id + 1 },
         Except.ok p.id) ∧
      p.id = verifiedStore.next_post_id ∧
      p.status = .draft ∧
      p.slug = mkSlug sampleAnalysis5.topic sampleAnalysis5.id "2026-10-12" ∧
      p.reliability_score =
        (verifiedStore.getVerificationFor 1).map (fun v => v.reliability_score) :=
  build_creates_draft_copying_score verifiedStore 1 sampleAnalysis5 "2026-10-12" 3 rfl

/-! ## Claim theorems about the publisher (C5) -/

/-- An approved post ready for publishing. -/
def samplePost : Post :=
  { id := 1, slug := "sample-post", topic := .ecom, title := "T"
    summary_tg := "S", reliability_score := some 83
    status := .approved, cms_id := none, created_at := 9 }

/-- A store holding only `samplePost`. -/
def pubStore : Store :=
  { analyses := [], verifications := [], posts := [samplePost]
    next_verification_id := 1, next_post_id := 2 }

/-- An environment in which the Telegram call fails. -/
def envTgFail : PublishEnv :=
  { cms_provider := "ghost", telegram_token := "token"
    telegram_chat_id := "chat", telegram_ok := false }

/-- The same environment with the Telegram call succeeding. -/
def envTgOk : PublishEnv :=
  { cms_provider := "ghost", telegram_token := "token"
    telegram_chat_id := "chat", telegram_ok := true }

/-- Counterexample for C5: publishing `samplePost` to `cms` (succeeding)
and `telegram` (failing) returns exactly the same result dict as when both
succeed — only `post_id`, `cms_id` and `status`. The result is therefore
not a per-channel outcome map and reports no error for the failing
channel, even though the Telegram outcomes genuinely differ. -/
theorem publish_result_lacks_channel_errors :
    publish_post pubStore 1 ["cms", "telegram"] envTgFail =
      publish_post pubStore 1 ["cms", "telegram"] envTgOk ∧
    (publish_post pubStore 1 ["cms", "telegram"] envTgFail).2 =
      Except.ok { post_id := 1, cms_id := some "cms-sample-post", status := "published" } ∧
    postToTelegram envTgFail samplePost ≠ postToTelegram envTgOk samplePost := by
  refine ⟨rfl, ?_, ?_⟩
  · simp [publish_post, pubStore, samplePost, Store.getPost, List.find?,
      postToCms, PostStatus.value]
  · simp [postToTelegram, envTgFail, envTgOk]

/-- C5 (amended): for an existing post, `publish_post` never raises on a
channel failure: the Telegram adapter's failure is swallowed (the result
is identical for every environment), CMS delivery and the transition to
`published` still happen, and the returned dict carries only the post id,
the CMS id and the final status — per-channel errors are only logged. -/
theorem publish_partial_failure_policy (st : Store) (post_id : Nat)
    (channels : List String) (env : PublishEnv) (p : Post)
    (h : st.getPost post_id = some p) :
    ∃ st', publish_post st post_id channels env =
        (st', Except.ok
          { post_id := p.id
            cms_id := if "cms" ∈ channels then some ("cms-" ++ p.slug) else none
            status := "published" }) ∧
      (∀ q ∈ st'.posts, q.id = post_id → q.status = .published) ∧
      (∃ q ∈ st'.posts, q.id = p.id ∧ q.status = .published ∧
        q.cms_id = (if "cms" ∈ channels then some ("cms-" ++ p.slug) else p.cms_id)) ∧
      (∀ env' : PublishEnv, publish_post st post_id channels env' =
        publish_post st post_id channels env) := by
  have hmem : p ∈ st.posts := List.mem_of_find?_eq_some h
  have hid : p.id = post_id := by
    have := List.find?_some h
    simpa using this
  refine ⟨(publish_post st post_id channels env).1, ?_, ?_, ?_, fun env' => rfl⟩
  · have h2 : (publish_post st post_id channels env).2 =
        Except.ok
          { post_id := p.id
            cms_id := if "cms" ∈ channels then some ("cms-" ++ p.slug) else none
            status := "published" } := by
      simp only [publish_post, h]
      by_cases hc : "cms" ∈ channels <;> simp [hc, postToCms, PostStatus.value]
    exact Prod.ext rfl h2
  · intro q hq hqid
    simp only [publish_post, h] at hq
    rcases List.mem_map.mp hq with ⟨q0, _, hq0⟩
    by_cases hc : q0.id = post_id
    · rw [if_pos hc] at hq0
      rw [← hq0]
    · rw [if_neg hc] at hq0
      rw [← hq0] at hqid
      exact absurd hqid hc
  · simp only [publish_post, h]
    refine ⟨_, List.mem_map.mpr ⟨p, hmem, rfl⟩, ?_, ?_, ?_⟩ <;> rw [if_pos hid] <;>
      by_cases hc : "cms" ∈ channels <;> simp [hc, postToCms]

/-- Witness for the amended C5 at the concrete failing environment. -/
theorem publish_partial_failure_policy_witness :
    ∃ st', publish_post pubStore 1 ["cms", "telegram"] envTgFail =
        (st', Except.ok
          { post_id := samplePost.id
            cms_id :=
              if "cms" ∈ ["cms", "telegram"] then some ("cms-" ++ samplePost.slug) else none
            status := "published" }) ∧
      (∀ q ∈ st'.posts, q.id = 1 → q.status = .published) ∧
      (∃ q ∈ st'.posts, q.id = samplePost.id ∧ q.status = .published ∧
        q.cms_id = (if "cms" ∈ ["cms", "telegram"] then some ("cms-" ++ samplePost.slug)
          else samplePost.cms_id)) ∧
      (∀ env' : PublishEnv, publish_post pubStore 1 ["cms", "telegram"] env' =
        publish_post pubStore 1 ["cms", "telegram"] envTgFail) :=
  publish_partial_failure_policy pubStore 1 ["cms", "telegram"] envTgFail samplePost rfl

/-! ## Claim theorems about the drafts listing (C9) -/

/-- Inserting keeps the list a permutation of the cons. -/
theorem insertByCreatedDesc_perm (p : Post) (l : List Post) :
    (insertByCreatedDesc p l).Perm (p :: l) := by
  induction l with
  | nil => exact List.Perm.refl _
  | cons q qs ih =>
    unfold insertByCreatedDesc
    split_ifs with hle
    · exact List.Perm.refl _
    · exact ((ih.cons q).trans (List.Perm.swap p q qs))

/-- The sort is a permutation of its input. -/
theorem sortByCreatedDesc_perm (l : List Post) :
    (sortByCreatedDesc l).Perm l := by
  induction l with
  | nil => exact List.Perm.refl _
  | cons p ps ih =>
    exact (insertByCreatedDesc_perm p (sortByCreatedDesc ps)).trans (ih.cons p)

/-- Inserting preserves descending `created_at` order. -/
theorem insertByCreatedDesc_pairwise (p : Post) (l : List Post)
    (hl : l.Pairwise (fun a b => b.created_at ≤ a.created_at)) :
    (insertByCreatedDesc p l).Pairwise (fun a b => b.created_at ≤ a.created_at) := by
  induction l with
  | nil => simp [insertByCreatedDesc]
  | cons q qs ih =>
    unfold insertByCreatedDesc
    rcases List.pairwise_cons.mp hl with ⟨hq, hqs⟩
    split_ifs with hle
    · refine List.pairwise_cons.mpr ⟨?_, hl⟩
      intro b hb
      rcases List.mem_cons.mp hb with rfl | hb
      · exact hle
      · exact le_trans (hq b hb) hle
    · refine List.pairwise_cons.mpr ⟨?_, ih hqs⟩
      intro b hb
      have hb' := (insertByCreatedDesc_perm p qs).mem_iff.mp hb
      rcases List.mem_cons.mp hb' with rfl | hb'
      · exact Nat.le_of_not_le hle
      · exact hq b hb'

/-- The sort output is in descending `created_at` order. -/
theorem sortByCreatedDesc_pairwise (l : List Post) :
    (sortByCreatedDesc l).Pairwise (fun a b => b.created_at ≤ a.created_at) := by
  induction l with
  | nil => simp [sortByCreatedDesc]
  | cons p ps ih => exact insertByCreatedDesc_pairwise p _ ih

/-- An `in_review` post that was never scored. -/
def nullScorePost : Post :=
  { id := 1, slug := "p-1", topic := .ecom, title := "T"
    summary_tg := "S", reliability_score := none
    status := .in_review, cms_id := none, created_at := 5 }

/-- A store holding only `nullScorePost`. -/
def draftsStore : Store :=
  { analyses := [], verifications := [], posts := [nullScorePost]
    next_verification_id := 1, next_post_id := 2 }

/-- Counterexample for C9: with `min_score = 10`, the listing still returns
the unscored post (`reliability_score` NULL), so the endpoint does not
return exactly the posts whose reliability score is at least the requested
minimum. -/
theorem drafts_listing_includes_unscored :
    nullScorePost.reliability_score = none ∧
    draftsStore.posts = [nullScorePost] ∧
    list_drafts draftsStore PostStatus.in_review 10 =
      [{ id := 1, slug := "p-1", title := "T", reliability_score := none
         created_at := 5, status := "in_review" }] := by
  refine ⟨rfl, rfl, ?_⟩
  simp [list_drafts, draftsStore, nullScorePost, draftsFilter, sortByCreatedDesc,
    insertByCreatedDesc, draftRow, PostStatus.value]

/-- C9 (amended): the listing returns exactly the serializations of the
posts whose status equals the requested status and whose reliability score
is either at least the requested minimum or absent (NULL), in descending
creation-time order. -/
theorem drafts_listing_filter_and_order (st : Store) (status : PostStatus) (min_score : ℚ) :
    (∀ r, r ∈ list_drafts st status min_score ↔
      ∃ p, p ∈ st.posts ∧ p.status = status ∧
        (p.reliability_score = none ∨
          ∃ s, p.reliability_score = some s ∧ min_score ≤ s) ∧
        r = draftRow p) ∧
    (list_drafts st status min_score).Pairwise
      (fun r1 r2 => r2.created_at ≤ r1.created_at) := by
  constructor
  · intro r
    unfold list_drafts
    rw [List.mem_map]
    constructor
    · rintro ⟨p, hp, hr⟩
      have hp' := (sortByCreatedDesc_perm _).mem_iff.mp hp
      rcases List.mem_filter.mp hp' with ⟨hmem, hfil⟩
      unfold draftsFilter at hfil
      rw [Bool.and_eq_true] at hfil
      rcases hfil with ⟨hstat, hsc⟩
      refine ⟨p, hmem, of_decide_eq_true hstat, ?_, hr.symm⟩
      rcases hscore : p.reliability_score with _ | s
      · exact Or.inl rfl
      · refine Or.inr ⟨s, rfl, ?_⟩
        rw [hscore] at hsc
        exact of_decide_eq_true hsc
    · rintro ⟨p, hmem, hstat, hsc, hr⟩
      refine ⟨p, ?_, hr.symm⟩
      apply (sortByCreatedDesc_perm _).mem_iff.mpr
      apply List.mem_filter.mpr
      refine ⟨hmem, ?_⟩
      unfold draftsFilter
      rw [Bool.and_eq_true]
      refine ⟨decide_eq_true hstat, ?_⟩
      rcases hsc with hsc | ⟨s, hs, hms⟩
      · rw [hsc]
      · rw [hs]
        exact decide_eq_true hms
  · unfold list_drafts
    rw [List.pairwise_map]
    exact (sortByCreatedDesc_pairwise _).imp (fun h => h)

/-! ## Slug generation (C8): helper lemmas -/

/-- The ten ASCII digit characters, as produced by `strftime` and by the
decimal rendering of integer ids. -/
def digitChars : List Char :=
  ['0', '1', '2', '3', '4', '5', '6', '7', '8', '9']

/-- The shape of `datetime.utcnow().strftime("%Y-%m-%d")`: four digits,
hyphen, two digits, hyphen, two digits. -/
def dateShape (D : List Char) : Prop :=
  ∃ y1 y2 y3 y4 m1 m2 d1 d2,
    y1 ∈ digitChars ∧ y2 ∈ digitChars ∧ y3 ∈ digitChars ∧ y4 ∈ digitChars ∧
    m1 ∈ digitChars ∧ m2 ∈ digitChars ∧ d1 ∈ digitChars ∧ d2 ∈ digitChars ∧
    D = [y1, y2, y3, y4, '-', m1, m2, '-', d1, d2]

/-- Adjacent characters are not both hyphens. -/
@[reducible] def noHH2 (a b : Char) : Prop :=
  ¬(a = '-' ∧ b = '-')

theorem digit_isSlugChar : ∀ c ∈ digitChars, isSlugChar c = true := by decide

theorem digit_toLower : ∀ c ∈ digitChars, c.toLower = c := by decide

theorem digit_ne_hyphen : ∀ c ∈ digitChars, c ≠ '-' := by decide

/-- `map Char.toLower` is the identity on lists of lowercase-stable
characters. -/
theorem map_toLower_fix (l : List Char) (h : ∀ c ∈ l, c.toLower = c) :
    l.map Char.toLower = l := by
  induction l with
  | nil => rfl
  | cons c cs ih =>
    rcases List.forall_mem_cons.mp h with ⟨hc, hcs⟩
    simp [hc, ih hcs]

/-- The bad-run substitution is the identity on lists of kept characters. -/
theorem subBadAux_fix (l : List Char) (b : Bool) (h : ∀ c ∈ l, isSlugChar c = true) :
    subBadAux b l = l := by
  induction l generalizing b with
  | nil => rfl
  | cons c cs ih =>
    rcases List.forall_mem_cons.mp h with ⟨hc, hcs⟩
    unfold subBadAux
    rw [if_pos hc, ih false hcs]

/-- Hyphen collapsing is the identity on lists with no two adjacent
hyphens; in the run-continuation state the head must also be no hyphen. -/
theorem collapseAux_fix (l : List Char) (hl : l.Chain' noHH2) :
    collapseAux false l = l ∧ (l.head? ≠ some '-' → collapseAux true l = l) := by
  induction l with
  | nil => exact ⟨rfl, fun _ => rfl⟩
  | cons c cs ih =>
    have hcs : cs.Chain' noHH2 := hl.tail
    rcases ih hcs with ⟨ih0, ih1⟩
    constructor
    · unfold collapseAux
      by_cases hc : c = '-'
      · rw [if_pos hc]
        have hhd : cs.head? ≠ some '-' := by
          cases cs with
          | nil => simp
          | cons d ds =>
            have hr : noHH2 c d := (List.chain'_cons.mp hl).1
            simp only [List.head?_cons, ne_eq, Option.some.injEq]
            intro hd
            exact hr ⟨hc, hd⟩
        rw [if_neg Bool.false_ne_true, ih1 hhd, hc]
      · rw [if_neg hc, ih0]
    · intro hhead
      have hc : c ≠ '-' := by
        simp only [List.head?_cons, ne_eq, Option.some.injEq] at hhead
        exact hhead
      unfold collapseAux
      rw [if_neg hc, ih0]

/-- `dropWhile` keeps a list whose head does not match. -/
theorem dropWhile_hyphen_fix (l : List Char) (h : l.head? ≠ some '-') :
    l.dropWhile (fun c => c = '-') = l := by
  cases l with
  | nil => rfl
  | cons c cs =>
    simp only [List.head?_cons, ne_eq, Option.some.injEq] at h
    simp [List.dropWhile_cons, h]

/-- Stripping hyphens is the identity when neither end is a hyphen. -/
theorem stripHyphens_fix (l : List Char) (h1 : l.head? ≠ some '-')
    (h2 : l.getLast? ≠ some '-') : stripHyphens l = l := by
  unfold stripHyphens
  rw [dropWhile_hyphen_fix l h1]
  rw [dropWhile_hyphen_fix l.reverse (by rwa [List.head?_reverse])]
  exact List.reverse_reverse l

/-- Lists without hyphens have no adjacent hyphens. -/
theorem chain'_noHH2_of_no_hyphen (l : List Char) (h : ∀ c ∈ l, c ≠ '-') :
    l.Chain' noHH2 := by
  induction l with
  | nil => exact List.chain'_nil
  | cons c cs ih =>
    rcases List.forall_mem_cons.mp h with ⟨hc, hcs⟩
    cases cs with
    | nil => exact List.chain'_singleton c
    | cons d ds =>
      refine List.chain'_cons.mpr ⟨?_, ih hcs⟩
      rintro ⟨hc', _⟩
      exact hc hc'

/-! ## Decimal rendering of ids: digit facts and injectivity -/

theorem digitChar_mem_digitChars : ∀ d < 10, Nat.digitChar d ∈ digitChars := by decide

/-- Every character produced by `natStrAux` is a decimal digit. -/
theorem natStrAux_mem_digitChars (fuel n : Nat) :
    ∀ c ∈ natStrAux fuel n, c ∈ digitChars := by
  induction fuel generalizing n with
  | zero => intro c hc; cases hc
  | succ fuel ih =>
    intro c hc
    unfold natStrAux at hc
    split_ifs at hc with hn
    · rcases List.mem_singleton.mp hc with rfl
      exact digitChar_mem_digitChars n hn
    · rcases List.mem_append.mp hc with hc | hc
      · exact ih (n / 10) c hc
      · rcases List.mem_singleton.mp hc with rfl
        exact digitChar_mem_digitChars (n % 10) (Nat.mod_lt n (by norm_num))

/-- Every character of `natStr n` is a decimal digit. -/
theorem natStr_mem_digitChars (n : Nat) : ∀ c ∈ natStr n, c ∈ digitChars :=
  natStrAux_mem_digitChars (n + 1) n

theorem natStrAux_ne_nil (fuel n : Nat) (h : fuel ≠ 0) : natStrAux fuel n ≠ [] := by
  cases fuel with
  | zero => exact absurd rfl h
  | succ fuel =>
    unfold natStrAux
    split_ifs <;> simp

/-- `natStr` never returns the empty list. -/
theorem natStr_ne_nil (n : Nat) : natStr n ≠ [] :=
  natStrAux_ne_nil (n + 1) n (Nat.succ_ne_zero n)

/-- The numeric value of a digit character. -/
def digitVal (c : Char) : Nat :=
  c.toNat - 48

/-- Decode a most-significant-first digit string back into a number. -/
def decodeDigits (l : List Char) : Nat :=
  l.foldl (fun acc c => 10 * acc + digitVal c) 0

theorem digitVal_digitChar : ∀ d < 10, digitVal (Nat.digitChar d) = d := by decide

theorem decodeDigits_append_singleton (l : List Char) (c : Char) :
    decodeDigits (l ++ [c]) = 10 * decodeDigits l + digitVal c := by
  unfold decodeDigits
  rw [List.foldl_append]
  rfl

theorem natStrAux_decode (fuel n : Nat) (h : n < 10 ^ fuel) :
    decodeDigits (natStrAux fuel n) = n := by
  induction fuel generalizing n with
  | zero =>
    interval_cases n
    rfl
  | succ fuel ih =>
    unfold natStrAux
    split_ifs with hn
    · show 10 * 0 + digitVal (Nat.digitChar n) = n
      rw [digitVal_digitChar n hn]
      omega
    · rw [decodeDigits_append_singleton]
      have hdiv : n / 10 < 10 ^ fuel := by
        rw [Nat.div_lt_iff_lt_mul (by norm_num)]
        calc n < 10 ^ (fuel + 1) := h
        _ = 10 ^ fuel * 10 := by rw [pow_succ]
      rw [ih (n / 10) hdiv, digitVal_digitChar (n % 10) (Nat.mod_lt n (by norm_num))]
      omega

theorem natStr_decode (n : Nat) : decodeDigits (natStr n) = n := by
  apply natStrAux_decode
  calc n < 10 ^ n := Nat.lt_pow_self (by norm_num) n
  _ ≤ 10 ^ (n + 1) := Nat.pow_le_pow_right (by norm_num) (Nat.le_succ n)

/-- Distinct numbers render to distinct digit strings. -/
theorem natStr_inj (n m : Nat) (h : natStr n = natStr m) : n = m := by
  have := congrArg decodeDigits h
  rwa [natStr_decode, natStr_decode] at this

/-! ## Normalized slugs and the evaluation of `slugify` on slug inputs -/

/-- What `slugify` turns each topic's `.value` into (`"o&g"` → `"o-g"`). -/
def canonSlug : TopicEnum → List Char
  | .ecom => ['e', 'c', 'o', 'm']
  | .it => ['i', 't']
  | .og => ['o', '-', 'g']

theorem subBadAux_cons_good (b : Bool) (c : Char) (cs : List Char)
    (h : isSlugChar c = true) :
    subBadAux b (c :: cs) = c :: subBadAux false cs := by
  simp only [subBadAux]
  rw [if_pos h]

theorem subBadAux_cons_bad (c : Char) (cs : List Char) (h : isSlugChar c = false) :
    subBadAux false (c :: cs) = '-' :: subBadAux true cs := by
  simp only [subBadAux]
  rw [if_neg (by simp [h]), if_neg Bool.false_ne_true]

/-- Characters of the slug tail (hyphen, id digits, hyphen, date) are
lowercase-stable. -/
theorem tail_toLower (id : Nat) (D : List Char)
    (hDd : ∀ c ∈ D, c ∈ digitChars ∨ c = '-') :
    ∀ c ∈ ('-' :: (natStr id ++ '-' :: D)), c.toLower = c := by
  intro c hc
  rcases List.mem_cons.mp hc with rfl | hc
  · decide
  rcases List.mem_append.mp hc with hc | hc
  · exact digit_toLower c (natStr_mem_digitChars id c hc)
  rcases List.mem_cons.mp hc with rfl | hc
  · decide
  rcases hDd c hc with hc | rfl
  · exact digit_toLower c hc
  · decide

/-- Characters of the slug tail are all kept by the first regex. -/
theorem tail_good (id : Nat) (D : List Char)
    (hDd : ∀ c ∈ D, c ∈ digitChars ∨ c = '-') :
    ∀ c ∈ ('-' :: (natStr id ++ '-' :: D)), isSlugChar c = true := by
  intro c hc
  rcases List.mem_cons.mp hc with rfl | hc
  · decide
  rcases List.mem_append.mp hc with hc | hc
  · exact digit_isSlugChar c (natStr_mem_digitChars id c hc)
  rcases List.mem_cons.mp hc with rfl | hc
  · decide
  rcases hDd c hc with hc | rfl
  · exact digit_isSlugChar c hc
  · decide

/-- The slug tail has no two adjacent hyphens. -/
theorem tail_chain (id : Nat) (y1 y2 y3 y4 m1 m2 d1 d2 : Char)
    (hy1 : y1 ∈ digitChars) (hy2 : y2 ∈ digitChars) (hy3 : y3 ∈ digitChars)
    (hy4 : y4 ∈ digitChars) (hm1 : m1 ∈ digitChars) (hm2 : m2 ∈ digitChars)
    (hd1 : d1 ∈ digitChars) (_hd2 : d2 ∈ digitChars) :
    List.Chain' noHH2
      ('-' :: (natStr id ++ '-' :: [y1, y2, y3, y4, '-', m1, m2, '-', d1, d2])) := by
  have hchD : List.Chain' noHH2 ('-' :: [y1, y2, y3, y4, '-', m1, m2, '-', d1, d2]) := by
    simp only [List.chain'_cons, List.chain'_singleton, and_true]
    refine ⟨?_, ?_, ?_, ?_, ?_, ?_, ?_, ?_, ?_, ?_⟩
    · rintro ⟨_, hb⟩; exact digit_ne_hyphen y1 hy1 hb
    · rintro ⟨ha, _⟩; exact digit_ne_hyphen y1 hy1 ha
    · rintro ⟨ha, _⟩; exact digit_ne_hyphen y2 hy2 ha
    · rintro ⟨ha, _⟩; exact digit_ne_hyphen y3 hy3 ha
    · rintro ⟨ha, _⟩; exact digit_ne_hyphen y4 hy4 ha
    · rintro ⟨_, hb⟩; exact digit_ne_hyphen m1 hm1 hb
    · rintro ⟨ha, _⟩; exact digit_ne_hyphen m1 hm1 ha
    · rintro ⟨ha, _⟩; exact digit_ne_hyphen m2 hm2 ha
    · rintro ⟨_, hb⟩; exact digit_ne_hyphen d1 hd1 hb
    · rintro ⟨ha, _⟩; exact digit_ne_hyphen d1 hd1 ha
  obtain ⟨c0, ns', hns0⟩ := List.exists_cons_of_ne_nil (natStr_ne_nil id)
  rw [hns0, List.cons_append]
  refine List.chain'_cons.mpr ⟨?_, ?_⟩
  · rintro ⟨_, hb⟩
    exact digit_ne_hyphen c0
      (natStr_mem_digitChars id c0 (by rw [hns0]; exact List.mem_cons_self c0 ns')) hb
  · rw [← List.cons_append]
    apply List.chain'_append.mpr
    refine ⟨?_, hchD, ?_⟩
    · rw [← hns0]
      exact chain'_noHH2_of_no_hyphen _
        (fun c hc => digit_ne_hyphen c (natStr_mem_digitChars id c hc))
    · intro x hx y hy
      rw [← hns0] at hx
      rcases List.mem_getLast?_eq_getLast hx with ⟨hne, rfl⟩
      rintro ⟨ha, _⟩
      exact digit_ne_hyphen _ (natStr_mem_digitChars id _ (List.getLast_mem hne)) ha

/-- Evaluation of `slugify` on the exact string `build_post` slugifies:
the topic value is normalized (`"o&g"` → `"o-g"`) and the id digits and
date pass through unchanged. -/
theorem slugifyList_canon (t : TopicEnum) (id : Nat) (D : List Char) (hD : dateShape D) :
    slugifyList (t.value.data ++ '-' :: (natStr id ++ '-' :: D)) =
      canonSlug t ++ '-' :: (natStr id ++ '-' :: D) := by
  obtain ⟨y1, y2, y3, y4, m1, m2, d1, d2, hy1, hy2, hy3, hy4, hm1, hm2, hd1, hd2, rfl⟩ := hD
  have hDd : ∀ c ∈ [y1, y2, y3, y4, '-', m1, m2, '-', d1, d2], c ∈ digitChars ∨ c = '-' := by
    intro c hc
    simp only [List.mem_cons, List.not_mem_nil, or_false] at hc
    rcases hc with rfl | rfl | rfl | rfl | rfl | rfl | rfl | rfl | rfl | rfl
    exacts [Or.inl hy1, Or.inl hy2, Or.inl hy3, Or.inl hy4, Or.inr rfl,
      Or.inl hm1, Or.inl hm2, Or.inr rfl, Or.inl hd1, Or.inl hd2]
  have hlowT := tail_toLower id _ hDd
  have hgoodT := tail_good id _ hDd
  have hchain := tail_chain id y1 y2 y3 y4 m1 m2 d1 d2 hy1 hy2 hy3 hy4 hm1 hm2 hd1 hd2
  have hd2ne : d2 ≠ '-' := digit_ne_hyphen d2 hd2
  cases t with
  | ecom =>
    show slugifyList ('e' :: 'c' :: 'o' :: 'm' ::
        ('-' :: (natStr id ++ '-' :: [y1, y2, y3, y4, '-', m1, m2, '-', d1, d2]))) = _
    have hlast : ('e' :: 'c' :: 'o' :: 'm' ::
        ('-' :: (natStr id ++ '-' :: [y1, y2, y3, y4, '-', m1, m2, '-', d1, d2]))).getLast? =
          some d2 := by
      have hsplit : ('e' :: 'c' :: 'o' :: 'm' ::
          ('-' :: (natStr id ++ '-' :: [y1, y2, y3, y4, '-', m1, m2, '-', d1, d2]))) =
          ('e' :: 'c' :: 'o' :: 'm' :: '-' :: natStr id) ++
            '-' :: [y1, y2, y3, y4, '-', m1, m2, '-', d1, d2] := by simp
      rw [hsplit, List.getLast?_append_cons]
      simp only [List.getLast?_cons_cons, List.getLast?_singleton]
    unfold slugifyList
    rw [map_toLower_fix _ (List.forall_mem_cons.mpr ⟨by decide, List.forall_mem_cons.mpr
      ⟨by decide, List.forall_mem_cons.mpr ⟨by decide, List.forall_mem_cons.mpr
      ⟨by decide, hlowT⟩⟩⟩⟩)]
    rw [subBadAux_fix _ false (List.forall_mem_cons.mpr ⟨by decide, List.forall_mem_cons.mpr
      ⟨by decide, List.forall_mem_cons.mpr ⟨by decide, List.forall_mem_cons.mpr
      ⟨by decide, hgoodT⟩⟩⟩⟩)]
    rw [(collapseAux_fix _ (List.chain'_cons.mpr ⟨by decide, List.chain'_cons.mpr
      ⟨by decide, List.chain'_cons.mpr ⟨by decide, List.chain'_cons.mpr
      ⟨by decide, hchain⟩⟩⟩⟩)).1]
    exact stripHyphens_fix _ (fun h => absurd (Option.some.inj h) (by decide))
      (fun h => hd2ne (Option.some.inj (hlast.symm.trans h)))
  | it =>
    show slugifyList ('i' :: 't' ::
        ('-' :: (natStr id ++ '-' :: [y1, y2, y3, y4, '-', m1, m2, '-', d1, d2]))) = _
    have hlast : ('i' :: 't' ::
        ('-' :: (natStr id ++ '-' :: [y1, y2, y3, y4, '-', m1, m2, '-', d1, d2]))).getLast? =
          some d2 := by
      have hsplit : ('i' :: 't' ::
          ('-' :: (natStr id ++ '-' :: [y1, y2, y3, y4, '-', m1, m2, '-', d1, d2]))) =
          ('i' :: 't' :: '-' :: natStr id) ++
            '-' :: [y1, y2, y3, y4, '-', m1, m2, '-', d1, d2] := by simp
      rw [hsplit, List.getLast?_append_cons]
      simp only [List.getLast?_cons_cons, List.getLast?_singleton]
    unfold slugifyList
    rw [map_toLower_fix _ (List.forall_mem_cons.mpr ⟨by decide, List.forall_mem_cons.mpr
      ⟨by decide, hlowT⟩⟩)]
    rw [subBadAux_fix _ false (List.forall_mem_cons.mpr ⟨by decide, List.forall_mem_cons.mpr
      ⟨by decide, hgoodT⟩⟩)]
    rw [(collapseAux_fix _ (List.chain'_cons.mpr ⟨by decide, List.chain'_cons.mpr
      ⟨by decide, hchain⟩⟩)).1]
    exact stripHyphens_fix _ (fun h => absurd (Option.some.inj h) (by decide))
      (fun h => hd2ne (Option.some.inj (hlast.symm.trans h)))
  | og =>
    show slugifyList ('o' :: '&' :: 'g' ::
        ('-' :: (natStr id ++ '-' :: [y1, y2, y3, y4, '-', m1, m2, '-', d1, d2]))) = _
    have hlast : ('o' :: '-' :: 'g' ::
        ('-' :: (natStr id ++ '-' :: [y1, y2, y3, y4, '-', m1, m2, '-', d1, d2]))).getLast? =
          some d2 := by
      have hsplit : ('o' :: '-' :: 'g' ::
          ('-' :: (natStr id ++ '-' :: [y1, y2, y3, y4, '-', m1, m2, '-', d1, d2]))) =
          ('o' :: '-' :: 'g' :: '-' :: natStr id) ++
            '-' :: [y1, y2, y3, y4, '-', m1, m2, '-', d1, d2] := by simp
      rw [hsplit, List.getLast?_append_cons]
      simp only [List.getLast?_cons_cons, List.getLast?_singleton]
    unfold slugifyList
    rw [map_toLower_fix _ (List.forall_mem_cons.mpr ⟨by decide, List.forall_mem_cons.mpr
      ⟨by decide, List.forall_mem_cons.mpr ⟨by decide, hlowT⟩⟩⟩)]
    rw [subBadAux_cons_good false 'o' _ (by decide)]
    rw [subBadAux_cons_bad '&' _ (by decide)]
    rw [subBadAux_cons_good true 'g' _ (by decide)]
    rw [subBadAux_fix _ false hgoodT]
    rw [(collapseAux_fix _ (List.chain'_cons.mpr ⟨by decide, List.chain'_cons.mpr
      ⟨by decide, List.chain'_cons.mpr ⟨by decide, hchain⟩⟩⟩)).1]
    exact stripHyphens_fix _ (fun h => absurd (Option.some.inj h) (by decide))
      (fun h => hd2ne (Option.some.inj (hlast.symm.trans h)))

/-! ## Injectivity of slug generation -/

theorem canon_inj_of_append (t1 t2 : TopicEnum) (x1 x2 : List Char)
    (h : canonSlug t1 ++ x1 = canonSlug t2 ++ x2) : t1 = t2 ∧ x1 = x2 := by
  cases t1 <;> cases t2 <;> simp_all [canonSlug]

theorem dateShape_length (D : List Char) (h : dateShape D) : D.length = 10 := by
  obtain ⟨y1, y2, y3, y4, m1, m2, d1, d2, _, _, _, _, _, _, _, _, rfl⟩ := h
  rfl

/-- Two canonical slugs agree only when topic, id and date all agree. -/
theorem slug_parts_inj (t1 t2 : TopicEnum) (id1 id2 : Nat) (D1 D2 : List Char)
    (h1 : dateShape D1) (h2 : dateShape D2)
    (h : canonSlug t1 ++ '-' :: (natStr id1 ++ '-' :: D1) =
         canonSlug t2 ++ '-' :: (natStr id2 ++ '-' :: D2)) :
    t1 = t2 ∧ id1 = id2 ∧ D1 = D2 := by
  obtain ⟨ht, hx⟩ := canon_inj_of_append t1 t2 _ _ h
  injection hx with _ hx2
  rcases List.append_inj' hx2
    (by simp [dateShape_length D1 h1, dateShape_length D2 h2]) with ⟨hns, hD⟩
  injection hD with _ hD2
  exact ⟨ht, natStr_inj _ _ hns, hD2⟩

theorem string_data_append (s u : String) : (s ++ u).data = s.data ++ u.data :=
  rfl

/-- The character list of a built slug, in the grouping the evaluation
lemma expects. -/
theorem mkSlug_data (t : TopicEnum) (id : Nat) (D : List Char) :
    (mkSlug t id ⟨D⟩).data =
      slugifyList (t.value.data ++ '-' :: (natStr id ++ '-' :: D)) := by
  unfold mkSlug slugify
  simp only [string_data_append]
  simp

/-- C8: `slugify("Ecom News!!") = "ecom-news"`, and slug generation is
injective on (topic, analysis id, date) triples: two `build_post` slugs
built from well-formed `%Y-%m-%d` dates coincide only when topic, id and
date all coincide. (`slugify` and `mkSlug` are functions, so
determinism is by construction.) -/
theorem slug_example_and_injective :
    slugify "Ecom News!!" = "ecom-news" ∧
    (∀ t1 t2 : TopicEnum, ∀ id1 id2 : Nat, ∀ D1 D2 : List Char,
      dateShape D1 → dateShape D2 →
      mkSlug t1 id1 ⟨D1⟩ = mkSlug t2 id2 ⟨D2⟩ →
      t1 = t2 ∧ id1 = id2 ∧ D1 = D2) := by
  refine ⟨by decide, ?_⟩
  intro t1 t2 id1 id2 D1 D2 h1 h2 h
  have hdata := congrArg String.data h
  rw [mkSlug_data, mkSlug_data,
    slugifyList_canon t1 id1 D1 h1, slugifyList_canon t2 id2 D2 h2] at hdata
  exact slug_parts_inj t1 t2 id1 id2 D1 D2 h1 h2 hdata

/-- Witness for C8 at topic `ecom`, id 12, date `2026-10-12`. -/
theorem slug_example_and_injective_witness :
    slugify "Ecom News!!" = "ecom-news" ∧
    (TopicEnum.ecom = TopicEnum.ecom ∧ 12 = 12 ∧
      "2026-10-12".data = "2026-10-12".data) :=
  ⟨slug_example_and_injective.1,
   slug_example_and_injective.2 .ecom .ecom 12 12 "2026-10-12".data "2026-10-12".data
     ⟨'2', '0', '2', '6', '1', '0', '1', '2', by decide, by decide, by decide, by decide,
       by decide, by decide, by decide, by decide, rfl⟩
     ⟨'2', '0', '2', '6', '1', '0', '1', '2', by decide, by decide, by decide, by decide,
       by decide, by decide, by decide, by decide, rfl⟩
     rfl⟩

end Reviewerly
